import Mathlib

set_option linter.unusedVariables false

/-!
Shallow embedding of the record-gateway data-access layer of the
fisioterapia-agustin repository.

The repository is a set of wrapper functions around a hosted backend
(database plus object storage).  Each wrapper issues one or more remote
calls and translates the response into a simplified return value, logging
errors via a diagnostic channel.

Embedding conventions:
* Record shapes are translated from the declarations in src/lib/supabase.ts;
  timestamps and dates keep their string representation (ISO strings compare
  lexicographically, matching chronological order).
* A remote response of a list query or the signed-URL call is a pair of an
  optional payload and an optional error (the code inspects both), captured
  by the structure Resp.  Responses of single-row calls, whose payload is
  only read after the error check, are an Except value.  Error-only
  responses (delete, rpc, storage remove) are an Option String.
* Every wrapper returns, besides its result, the list of diagnostic log
  entries it emitted (the literal first argument of each console.error
  call) and, where a claim needs it, a trace of the requests it issued
  (rpc calls, storage keys, metadata inserts and deletes).
* Date.now() and new Date().toISOString() at the call site are modelled by
  an explicit parameter.
* The backend itself is not part of the repository; where a claim speaks
  about the shape of a successful response (ordering, filtering, applying
  an update to the row with a given primary key), the healthy backend is
  modelled as filter/sort/merge functions over an explicit list of rows,
  and the wrapper is applied to the response such a backend produces.
-/

namespace Gateway

inductive Gender where
  | masculino
  | femenino
  | otro
deriving DecidableEq, Repr

inductive PatientStatus where
  | activo
  | seguimiento
  | alta
deriving DecidableEq, Repr

inductive AppointmentStatus where
  | confirmada
  | pendiente
  | cancelada
deriving DecidableEq, Repr

/-- Record shape Patient from src/lib/supabase.ts. -/
structure Patient where
  id : String
  name : String
  cedula : String
  phone : String
  email : String
  address : Option String
  birth_date : Option String
  gender : Option Gender
  treatments : Nat
  status : PatientStatus
  notes : Option String
  created_at : String
  updated_at : String
deriving DecidableEq, Repr

/-- Record shape MedicalHistory from src/lib/supabase.ts. -/
structure MedicalHistory where
  id : String
  patient_id : String
  date : String
  treatment : String
  notes : Option String
  evolution : Option String
  created_at : String
  updated_at : String
deriving DecidableEq, Repr

/-- Record shape Appointment from src/lib/supabase.ts. -/
structure Appointment where
  id : String
  patient_id : String
  date : String
  time : String
  duration : Nat
  type : String
  notes : Option String
  status : AppointmentStatus
  created_at : String
  updated_at : String
deriving DecidableEq, Repr

/-- Record shape PatientFile from src/lib/supabase.ts. -/
structure PatientFile where
  id : String
  patient_id : String
  name : String
  type : String
  size : Nat
  storage_path : String
  upload_date : String
deriving DecidableEq, Repr

/-- Response of a remote call whose data and error are both inspected by the
wrapper: an optional payload together with an optional error. -/
structure Resp (α : Type) where
  data : Option α
  error : Option String
deriving DecidableEq, Repr

/-- Insert payload for createPatient: Patient minus the generated fields
id, created_at, updated_at. -/
structure PatientInput where
  name : String
  cedula : String
  phone : String
  email : String
  address : Option String
  birth_date : Option String
  gender : Option Gender
  treatments : Nat
  status : PatientStatus
  notes : Option String
deriving DecidableEq, Repr

/-- Insert payload for addMedicalHistory: MedicalHistory minus the generated
fields id, created_at, updated_at. -/
structure MedicalHistoryInput where
  patient_id : String
  date : String
  treatment : String
  notes : Option String
  evolution : Option String
deriving DecidableEq, Repr

/-- Insert payload for createAppointment: Appointment minus the generated
fields id, created_at, updated_at. -/
structure AppointmentInput where
  patient_id : String
  date : String
  time : String
  duration : Nat
  type : String
  notes : Option String
  status : AppointmentStatus
deriving DecidableEq, Repr

/-- Partial Patient: every field optional, as in the TypeScript
Partial type used by updatePatient. -/
structure PatientUpdate where
  id : Option String := none
  name : Option String := none
  cedula : Option String := none
  phone : Option String := none
  email : Option String := none
  address : Option String := none
  birth_date : Option String := none
  gender : Option Gender := none
  treatments : Option Nat := none
  status : Option PatientStatus := none
  notes : Option String := none
  created_at : Option String := none
  updated_at : Option String := none
deriving DecidableEq, Repr

/-- Partial Appointment: every field optional, as in the TypeScript
Partial type used by updateAppointment. -/
structure AppointmentUpdate where
  id : Option String := none
  patient_id : Option String := none
  date : Option String := none
  time : Option String := none
  duration : Option Nat := none
  type : Option String := none
  notes : Option String := none
  status : Option AppointmentStatus := none
  created_at : Option String := none
  updated_at : Option String := none
deriving DecidableEq, Repr

/-- Nested join object produced by the select of getAppointments:
patients!inner(name). -/
structure PatientsName where
  name : String
deriving DecidableEq, Repr

/-- Row returned by the join select of getAppointments: all Appointment
columns plus the nested patients object. -/
structure AppointmentJoined where
  id : String
  patient_id : String
  date : String
  time : String
  duration : Nat
  type : String
  notes : Option String
  status : AppointmentStatus
  created_at : String
  updated_at : String
  patients : PatientsName
deriving DecidableEq, Repr

/-- Element of the array getAppointments returns: the joined row spread
into a new object with the extra flattened field patientName. -/
structure AppointmentWithName where
  id : String
  patient_id : String
  date : String
  time : String
  duration : Nat
  type : String
  notes : Option String
  status : AppointmentStatus
  created_at : String
  updated_at : String
  patients : PatientsName
  patientName : String
deriving DecidableEq, Repr

/-- Payload of a storage upload response: the path the blob was stored
under. -/
structure UploadData where
  path : String
deriving DecidableEq, Repr

/-- Metadata row sent to the patient_files insert by uploadPatientFile. -/
structure FileMetadataInput where
  patient_id : String
  name : String
  type : String
  size : Nat
  storage_path : String
deriving DecidableEq, Repr

/-- Projection fetched by deletePatientFile: select storage_path. -/
structure FileInfo where
  storage_path : String
deriving DecidableEq, Repr

/-- Payload of a createSignedUrl response. -/
structure SignedUrlData where
  signedUrl : String
deriving DecidableEq, Repr

/-- File object handed to uploadPatientFile: original name, declared MIME
type, byte size (the binary content itself is irrelevant to the wrapper
logic). -/
structure FileObj where
  name : String
  type : String
  size : Nat
deriving DecidableEq, Repr

/-- Tests whether an Except-shaped remote response failed. -/
def exceptFailed {α : Type} : Except String α → Bool
  | .error _ => true
  | .ok _ => false

/-! ## Wrapper functions

One definition per exported function of the data-access module, in source
order.  Each returns its result together with the list of diagnostic log
entries emitted (the literal first argument of each console.error call). -/

/-- getPatients: select all patients ordered by created_at descending; on
error log and return the empty array, otherwise return data or the empty
array when data is absent. -/
def getPatients (r : Resp (List Patient)) : List Patient × List String :=
  match r.error with
  | some _ => ([], ["Error fetching patients:"])
  | none => (r.data.getD [], [])

/-- getPatientById: select a single patient by id; on error log and return
null, otherwise return the row. -/
def getPatientById (id : String) (r : Except String Patient) :
    Option Patient × List String :=
  match r with
  | .error _ => (none, ["Error fetching patient:"])
  | .ok data => (some data, [])

/-- createPatient: insert one patient row; on error log and return null,
otherwise return the inserted row. -/
def createPatient (patient : PatientInput) (r : Except String Patient) :
    Option Patient × List String :=
  match r with
  | .error _ => (none, ["Error creating patient:"])
  | .ok data => (some data, [])

/-- Update object sent by updatePatient: the caller's partial update spread
into a new object whose updated_at field is then set to the call-site
timestamp, overriding any caller-supplied value. -/
def patientUpdatePayload (updates : PatientUpdate) (now : String) :
    PatientUpdate :=
  { updates with updated_at := some now }

/-- updatePatient: send the stamped payload to the backend update keyed by
id; on error log and return null, otherwise return the updated row.  The
backend is a function from the payload and the id to the response. -/
def updatePatient (id : String) (updates : PatientUpdate) (now : String)
    (backend : PatientUpdate → String → Except String Patient) :
    Option Patient × List String :=
  match backend (patientUpdatePayload updates now) id with
  | .error _ => (none, ["Error updating patient:"])
  | .ok data => (some data, [])

/-- deletePatient: delete one patient row by id; on error log and return
false, otherwise return true. -/
def deletePatient (id : String) (r : Option String) : Bool × List String :=
  match r with
  | some _ => (false, ["Error deleting patient:"])
  | none => (true, [])

/-- getMedicalHistory: select medical_history rows filtered by patient_id
and ordered by date descending; on error log and return the empty array. -/
def getMedicalHistory (patientId : String) (r : Resp (List MedicalHistory)) :
    List MedicalHistory × List String :=
  match r.error with
  | some _ => ([], ["Error fetching medical history:"])
  | none => (r.data.getD [], [])

/-- Outcome of addMedicalHistory: the returned value, the log, and the list
of patient ids passed to the increment_patient_treatments rpc. -/
structure AddHistoryOutcome where
  result : Option MedicalHistory
  log : List String
  rpcCalls : List String
deriving DecidableEq, Repr

/-- addMedicalHistory: insert one medical_history row; on insert error log
and return null without touching the rpc.  After a successful insert, call
the increment_patient_treatments rpc with the owning patient id; the rpc
response is awaited but discarded (neither logged nor inspected) and the
inserted row is returned. -/
def addMedicalHistory (history : MedicalHistoryInput)
    (insertResp : Except String MedicalHistory)
    (rpcResp : Option String) : AddHistoryOutcome :=
  match insertResp with
  | .error _ =>
      { result := none
        log := ["Error adding medical history:"]
        rpcCalls := [] }
  | .ok data =>
      { result := some data
        log := []
        rpcCalls := [history.patient_id] }

/-- Flattening step of getAppointments: spread the joined row and add the
field patientName taken from the nested patients object. -/
def flattenAppointment (apt : AppointmentJoined) : AppointmentWithName :=
  { id := apt.id
    patient_id := apt.patient_id
    date := apt.date
    time := apt.time
    duration := apt.duration
    type := apt.type
    notes := apt.notes
    status := apt.status
    created_at := apt.created_at
    updated_at := apt.updated_at
    patients := apt.patients
    patientName := apt.patients.name }

/-- getAppointments: select all appointments joined with the patient name,
ordered by date ascending; on error log and return the empty array,
otherwise map the flattening step over data (or the empty array when data
is absent). -/
def getAppointments (r : Resp (List AppointmentJoined)) :
    List AppointmentWithName × List String :=
  match r.error with
  | some _ => ([], ["Error fetching appointments:"])
  | none => ((r.data.getD []).map flattenAppointment, [])

/-- createAppointment: insert one appointment row; on error log and return
null, otherwise return the inserted row. -/
def createAppointment (appointment : AppointmentInput)
    (r : Except String Appointment) : Option Appointment × List String :=
  match r with
  | .error _ => (none, ["Error creating appointment:"])
  | .ok data => (some data, [])

/-- Update object sent by updateAppointment: the caller's partial update
spread into a new object whose updated_at field is then set to the
call-site timestamp, overriding any caller-supplied value. -/
def appointmentUpdatePayload (updates : AppointmentUpdate) (now : String) :
    AppointmentUpdate :=
  { updates with updated_at := some now }

/-- updateAppointment: send the stamped payload to the backend update keyed
by id; on error log and return null, otherwise return the updated row. -/
def updateAppointment (id : String) (updates : AppointmentUpdate)
    (now : String)
    (backend : AppointmentUpdate → String → Except String Appointment) :
    Option Appointment × List String :=
  match backend (appointmentUpdatePayload updates now) id with
  | .error _ => (none, ["Error updating appointment:"])
  | .ok data => (some data, [])

/-- deleteAppointment: delete one appointment row by id; on error log and
return false, otherwise return true. -/
def deleteAppointment (id : String) (r : Option String) :
    Bool × List String :=
  match r with
  | some _ => (false, ["Error deleting appointment:"])
  | none => (true, [])

/-- getPatientFiles: select patient_files rows filtered by patient_id and
ordered by upload_date descending; on error log and return the empty
array. -/
def getPatientFiles (patientId : String) (r : Resp (List PatientFile)) :
    List PatientFile × List String :=
  match r.error with
  | some _ => ([], ["Error fetching patient files:"])
  | none => (r.data.getD [], [])

/-- Outcome of uploadPatientFile: the returned value, the log, the storage
key the blob write was requested under, and the metadata insert requests
issued. -/
structure UploadOutcome where
  result : Option PatientFile
  log : List String
  storageKey : String
  metadataInserts : List FileMetadataInput
deriving DecidableEq, Repr

/-- uploadPatientFile: build the storage key from the patient id, the
current timestamp and the original file name, and upload the blob under
it; on upload error log and return null without inserting metadata.  After
a successful upload, insert a metadata row carrying the patient id, the
original name, the declared MIME type, the byte size and the storage path
the upload response reported; on insert error log and return null,
otherwise return the inserted row. -/
def uploadPatientFile (patientId : String) (file : FileObj) (now : Nat)
    (uploadResp : Except String UploadData)
    (insertResp : Except String PatientFile) : UploadOutcome :=
  let fileName := patientId ++ "/" ++ toString now ++ "-" ++ file.name
  match uploadResp with
  | .error _ =>
      { result := none
        log := ["Error uploading file:"]
        storageKey := fileName
        metadataInserts := [] }
  | .ok uploadData =>
      let fileData : FileMetadataInput :=
        { patient_id := patientId
          name := file.name
          type := file.type
          size := file.size
          storage_path := uploadData.path }
      match insertResp with
      | .error _ =>
          { result := none
            log := ["Error saving file metadata:"]
            storageKey := fileName
            metadataInserts := [fileData] }
      | .ok data =>
          { result := some data
            log := []
            storageKey := fileName
            metadataInserts := [fileData] }

/-- Outcome of deletePatientFile: the returned flag, the log, the storage
paths whose removal was requested, and the file ids whose metadata-row
deletion was requested. -/
structure DeleteFileOutcome where
  result : Bool
  log : List String
  storageRemovals : List String
  metadataDeletes : List String
deriving DecidableEq, Repr

/-- deletePatientFile: fetch the metadata row to obtain storage_path; on
fetch error log and return false without touching storage or the row.
Then request removal of the blob; a storage error is logged only and does
not abort.  Then delete the metadata row; on error log and return false,
otherwise return true. -/
def deletePatientFile (fileId : String)
    (fetchResp : Except String FileInfo)
    (storageResp : Option String)
    (deleteResp : Option String) : DeleteFileOutcome :=
  match fetchResp with
  | .error _ =>
      { result := false
        log := ["Error fetching file info:"]
        storageRemovals := []
        metadataDeletes := [] }
  | .ok fileData =>
      let storageLog := match storageResp with
        | some _ => ["Error deleting file from storage:"]
        | none => []
      match deleteResp with
      | some _ =>
          { result := false
            log := storageLog ++ ["Error deleting file metadata:"]
            storageRemovals := [fileData.storage_path]
            metadataDeletes := [fileId] }
      | none =>
          { result := true
            log := storageLog
            storageRemovals := [fileData.storage_path]
            metadataDeletes := [fileId] }

/-- Outcome of getFileUrl: the returned value, the log, and the path and
expiry of the signed-URL request issued. -/
structure SignedUrlOutcome where
  result : Option String
  log : List String
  requestedPath : String
  requestedExpiry : Nat
deriving DecidableEq, Repr

/-- getFileUrl: request a signed URL for the storage path with a 3600
second expiry; the response's error is discarded without logging, and the
result is the signed URL when data is present and the URL is a truthy
(non-empty) string, null otherwise. -/
def getFileUrl (storagePath : String) (r : Resp SignedUrlData) :
    SignedUrlOutcome :=
  { result := match r.data with
      | some d => if d.signedUrl = "" then none else some d.signedUrl
      | none => none
    log := []
    requestedPath := storagePath
    requestedExpiry := 3600 }

/-! ## Healthy-backend model

The backend is external to the repository; its contract (filter by
equality, order by a column, apply a partial update to the row with a
given primary key) is modelled here so that claims about the shape of
successful responses can be stated. -/

/-- Ordering requested by getPatients: created_at descending. -/
def patientCreatedDesc (a b : Patient) : Prop :=
  b.created_at ≤ a.created_at

instance : DecidableRel patientCreatedDesc := fun a b =>
  inferInstanceAs (Decidable (b.created_at ≤ a.created_at))

instance : IsTotal Patient patientCreatedDesc :=
  ⟨fun a b => le_total b.created_at a.created_at⟩

instance : IsTrans Patient patientCreatedDesc :=
  ⟨fun _ _ _ hab hbc => le_trans hbc hab⟩

/-- Ordering requested by getMedicalHistory: date descending. -/
def historyDateDesc (a b : MedicalHistory) : Prop :=
  b.date ≤ a.date

instance : DecidableRel historyDateDesc := fun a b =>
  inferInstanceAs (Decidable (b.date ≤ a.date))

instance : IsTotal MedicalHistory historyDateDesc :=
  ⟨fun a b => le_total b.date a.date⟩

instance : IsTrans MedicalHistory historyDateDesc :=
  ⟨fun _ _ _ hab hbc => le_trans hbc hab⟩

/-- Ordering requested by getPatientFiles: upload_date descending. -/
def fileUploadDateDesc (a b : PatientFile) : Prop :=
  b.upload_date ≤ a.upload_date

instance : DecidableRel fileUploadDateDesc := fun a b =>
  inferInstanceAs (Decidable (b.upload_date ≤ a.upload_date))

instance : IsTotal PatientFile fileUploadDateDesc :=
  ⟨fun a b => le_total b.upload_date a.upload_date⟩

instance : IsTrans PatientFile fileUploadDateDesc :=
  ⟨fun _ _ _ hab hbc => le_trans hbc hab⟩

/-- Ordering requested by getAppointments: date ascending. -/
def appointmentDateAsc (a b : AppointmentJoined) : Prop :=
  a.date ≤ b.date

instance : DecidableRel appointmentDateAsc := fun a b =>
  inferInstanceAs (Decidable (a.date ≤ b.date))

instance : IsTotal AppointmentJoined appointmentDateAsc :=
  ⟨fun a b => le_total a.date b.date⟩

instance : IsTrans AppointmentJoined appointmentDateAsc :=
  ⟨fun _ _ _ hab hbc => le_trans hab hbc⟩

/-- Healthy-backend response data of the getPatients query: all rows
ordered by created_at descending. -/
def patientsQuery (db : List Patient) : List Patient :=
  List.insertionSort patientCreatedDesc db

/-- Healthy-backend response data of the getMedicalHistory query: rows
whose patient_id equals the given value, ordered by date descending. -/
def medicalHistoryQuery (db : List MedicalHistory) (patientId : String) :
    List MedicalHistory :=
  List.insertionSort historyDateDesc
    (db.filter fun h => h.patient_id == patientId)

/-- Healthy-backend response data of the getPatientFiles query: rows whose
patient_id equals the given value, ordered by upload_date descending. -/
def patientFilesQuery (db : List PatientFile) (patientId : String) :
    List PatientFile :=
  List.insertionSort fileUploadDateDesc
    (db.filter fun f => f.patient_id == patientId)

/-- Healthy-backend response data of the getAppointments join query: all
joined rows ordered by date ascending. -/
def appointmentsQuery (db : List AppointmentJoined) :
    List AppointmentJoined :=
  List.insertionSort appointmentDateAsc db

/-- Merge of a partial update into a patient row: each provided field
replaces the stored one, absent fields keep the stored value. -/
def mergePatient (p : Patient) (u : PatientUpdate) : Patient :=
  { id := u.id.getD p.id
    name := u.name.getD p.name
    cedula := u.cedula.getD p.cedula
    phone := u.phone.getD p.phone
    email := u.email.getD p.email
    address := (u.address.map some).getD p.address
    birth_date := (u.birth_date.map some).getD p.birth_date
    gender := (u.gender.map some).getD p.gender
    treatments := u.treatments.getD p.treatments
    status := u.status.getD p.status
    notes := (u.notes.map some).getD p.notes
    created_at := u.created_at.getD p.created_at
    updated_at := u.updated_at.getD p.updated_at }

/-- Merge of a partial update into an appointment row. -/
def mergeAppointment (a : Appointment) (u : AppointmentUpdate) :
    Appointment :=
  { id := u.id.getD a.id
    patient_id := u.patient_id.getD a.patient_id
    date := u.date.getD a.date
    time := u.time.getD a.time
    duration := u.duration.getD a.duration
    type := u.type.getD a.type
    notes := (u.notes.map some).getD a.notes
    status := u.status.getD a.status
    created_at := u.created_at.getD a.created_at
    updated_at := u.updated_at.getD a.updated_at }

/-- Healthy backend for the update-by-primary-key of updatePatient: apply
the payload to the row whose id matches and return the updated row as the
single selected row; fail when no row matches. -/
def patientUpdateBackend (db : List Patient)
    (payload : PatientUpdate) (id : String) : Except String Patient :=
  match db.find? (fun p => p.id == id) with
  | none => .error "single row expected"
  | some p => .ok (mergePatient p payload)

/-- Healthy backend for the update-by-primary-key of updateAppointment. -/
def appointmentUpdateBackend (db : List Appointment)
    (payload : AppointmentUpdate) (id : String) : Except String Appointment :=
  match db.find? (fun a => a.id == id) with
  | none => .error "single row expected"
  | some a => .ok (mergeAppointment a payload)

/-! ## Sample fixtures used by concrete witnesses and counterexamples -/

/-- Sample insert payload for medical history. -/
def sampleHistoryInput : MedicalHistoryInput :=
  { patient_id := "p1"
    date := "2024-05-01"
    treatment := "laser"
    notes := none
    evolution := none }

/-- Sample inserted medical-history row. -/
def sampleHistoryRow : MedicalHistory :=
  { id := "h1"
    patient_id := "p1"
    date := "2024-05-01"
    treatment := "laser"
    notes := none
    evolution := none
    created_at := "2024-05-01T10:00:00Z"
    updated_at := "2024-05-01T10:00:00Z" }

/-- Sample patient row. -/
def samplePatient : Patient :=
  { id := "p1"
    name := "Ana Ruiz"
    cedula := "001"
    phone := "555"
    email := "a@x.co"
    address := none
    birth_date := none
    gender := none
    treatments := 0
    status := .activo
    notes := none
    created_at := "2024-01-01T00:00:00Z"
    updated_at := "2024-01-01T00:00:00Z" }

/-- Sample appointment row. -/
def sampleAppointment : Appointment :=
  { id := "a1"
    patient_id := "p1"
    date := "2024-02-01"
    time := "10:00"
    duration := 30
    type := "Fisioterapia"
    notes := none
    status := .pendiente
    created_at := "2024-01-15T00:00:00Z"
    updated_at := "2024-01-15T00:00:00Z" }

/-! ## Claims -/

/-- C1 counterexample: with a successful insert and a failing
increment_patient_treatments rpc, addMedicalHistory emits no diagnostic
log entry at all and returns the inserted row rather than the null
sentinel, so there is a remote-call error that is neither logged nor
converted to the type-appropriate empty result. -/
theorem addMedicalHistory_rpc_error_silent :
    (addMedicalHistory sampleHistoryInput (.ok sampleHistoryRow)
      (some "network failure")).log = [] ∧
    (addMedicalHistory sampleHistoryInput (.ok sampleHistoryRow)
      (some "network failure")).result ≠ none := by
  refine ⟨rfl, ?_⟩
  intro h
  simp [addMedicalHistory] at h

/-- C1 amended: the failure of each operation's primary remote call is
logged and converted to the type-appropriate empty sentinel (empty array,
null, or false), with the exceptions the code forces: the
increment_patient_treatments rpc error inside addMedicalHistory is neither
logged nor surfaced (the inserted row is still returned), the signed-URL
request inside getFileUrl never logs (though a failed request still yields
null), and a storage-removal error inside deletePatientFile is logged but
does not by itself make the operation return false. -/
theorem errorHandling_per_operation :
    (∀ d e, getPatients ⟨d, some e⟩ = ([], ["Error fetching patients:"])) ∧
    (∀ id e, getPatientById id (.error e) =
      (none, ["Error fetching patient:"])) ∧
    (∀ p e, createPatient p (.error e) =
      (none, ["Error creating patient:"])) ∧
    (∀ id u now e, updatePatient id u now (fun _ _ => .error e) =
      (none, ["Error updating patient:"])) ∧
    (∀ id e, deletePatient id (some e) =
      (false, ["Error deleting patient:"])) ∧
    (∀ pid d e, getMedicalHistory pid ⟨d, some e⟩ =
      ([], ["Error fetching medical history:"])) ∧
    (∀ h e r, addMedicalHistory h (.error e) r =
      { result := none, log := ["Error adding medical history:"],
        rpcCalls := [] }) ∧
    (∀ h row e, addMedicalHistory h (.ok row) (some e) =
      { result := some row, log := [], rpcCalls := [h.patient_id] }) ∧
    (∀ d e, getAppointments ⟨d, some e⟩ =
      ([], ["Error fetching appointments:"])) ∧
    (∀ a e, createAppointment a (.error e) =
      (none, ["Error creating appointment:"])) ∧
    (∀ id u now e, updateAppointment id u now (fun _ _ => .error e) =
      (none, ["Error updating appointment:"])) ∧
    (∀ id e, deleteAppointment id (some e) =
      (false, ["Error deleting appointment:"])) ∧
    (∀ pid d e, getPatientFiles pid ⟨d, some e⟩ =
      ([], ["Error fetching patient files:"])) ∧
    (∀ pid f now e iR, uploadPatientFile pid f now (.error e) iR =
      { result := none, log := ["Error uploading file:"],
        storageKey := pid ++ "/" ++ toString now ++ "-" ++ f.name,
        metadataInserts := [] }) ∧
    (∀ pid f now ud e, uploadPatientFile pid f now (.ok ud) (.error e) =
      { result := none, log := ["Error saving file metadata:"],
        storageKey := pid ++ "/" ++ toString now ++ "-" ++ f.name,
        metadataInserts := [⟨pid, f.name, f.type, f.size, ud.path⟩] }) ∧
    (∀ fid e sR dR, deletePatientFile fid (.error e) sR dR =
      { result := false, log := ["Error fetching file info:"],
        storageRemovals := [], metadataDeletes := [] }) ∧
    (∀ fid info e, deletePatientFile fid (.ok info) (some e) none =
      { result := true, log := ["Error deleting file from storage:"],
        storageRemovals := [info.storage_path],
        metadataDeletes := [fid] }) ∧
    (∀ fid info sR e,
      (deletePatientFile fid (.ok info) sR (some e)).result = false ∧
      "Error deleting file metadata:" ∈
        (deletePatientFile fid (.ok info) sR (some e)).log) ∧
    (∀ p r, (getFileUrl p r).log = []) ∧
    (∀ p e, (getFileUrl p ⟨none, e⟩).result = none) := by
  refine ⟨fun _ _ => rfl, fun _ _ => rfl, fun _ _ => rfl, fun _ _ _ _ => rfl,
    fun _ _ => rfl, fun _ _ _ => rfl, fun _ _ _ => rfl, fun _ _ _ => rfl,
    fun _ _ => rfl, fun _ _ => rfl, fun _ _ _ _ => rfl, fun _ _ => rfl,
    fun _ _ _ => rfl, fun _ _ _ _ _ => rfl, fun _ _ _ _ _ => rfl,
    fun _ _ _ _ => rfl, fun _ _ _ => rfl, fun fid info sR e => ?_,
    fun _ _ => rfl, fun _ _ => rfl⟩
  cases sR <;> simp [deletePatientFile]

/-- C2: deletePatientFile returns false exactly when the initial metadata
fetch fails or, the fetch having succeeded, the final metadata-row
deletion fails; when only the storage-blob removal fails, the metadata
delete request is still issued (and here succeeds) and the operation
returns true. -/
theorem deletePatientFile_failure_semantics :
    (∀ fid fetchR sR dR,
      (deletePatientFile fid fetchR sR dR).result = false ↔
        exceptFailed fetchR = true ∨
          (exceptFailed fetchR = false ∧ dR.isSome = true)) ∧
    (∀ fid info e, deletePatientFile fid (.ok info) (some e) none =
      { result := true, log := ["Error deleting file from storage:"],
        storageRemovals := [info.storage_path],
        metadataDeletes := [fid] }) := by
  refine ⟨fun fid fetchR sR dR => ?_, fun _ _ _ => rfl⟩
  cases fetchR <;> cases dR <;> simp [deletePatientFile, exceptFailed]

/-- C3: uploadPatientFile always requests the blob write under the key
patient_id/timestamp-original_name; a storage failure yields null with no
metadata insert issued; after a successful upload the metadata row
carrying the patient id, original name, declared MIME type, byte size and
reported storage path is inserted and returned. -/
theorem uploadPatientFile_key_and_abort :
    (∀ pid f now uR iR, (uploadPatientFile pid f now uR iR).storageKey =
      pid ++ "/" ++ toString now ++ "-" ++ f.name) ∧
    (∀ pid f now e iR, uploadPatientFile pid f now (.error e) iR =
      { result := none, log := ["Error uploading file:"],
        storageKey := pid ++ "/" ++ toString now ++ "-" ++ f.name,
        metadataInserts := [] }) ∧
    (∀ pid f now ud row, uploadPatientFile pid f now (.ok ud) (.ok row) =
      { result := some row, log := [],
        storageKey := pid ++ "/" ++ toString now ++ "-" ++ f.name,
        metadataInserts := [⟨pid, f.name, f.type, f.size, ud.path⟩] }) := by
  refine ⟨fun pid f now uR iR => ?_, fun _ _ _ _ _ => rfl,
    fun _ _ _ _ _ => rfl⟩
  cases uR <;> [rfl; (cases iR <;> rfl)]

/-- C4: addMedicalHistory issues the treatments-counter increment, with
the owning patient's id, only after a successful insert: an insert failure
returns null with no rpc call, while after a successful insert exactly one
rpc call against history.patient_id is issued and the inserted row is
returned whatever the rpc outcome. -/
theorem addMedicalHistory_increment_order :
    (∀ h e r, addMedicalHistory h (.error e) r =
      { result := none, log := ["Error adding medical history:"],
        rpcCalls := [] }) ∧
    (∀ h row r, addMedicalHistory h (.ok row) r =
      { result := some row, log := [], rpcCalls := [h.patient_id] }) :=
  ⟨fun _ _ _ => rfl, fun _ _ _ => rfl⟩

/-- C5: each of the four list operations, on a failing remote call, logs
the error and returns the empty array; being total functions into a pair,
they never propagate an exception. -/
theorem list_ops_fail_empty_and_logged :
    (∀ d e, getPatients ⟨d, some e⟩ = ([], ["Error fetching patients:"])) ∧
    (∀ pid d e, getMedicalHistory pid ⟨d, some e⟩ =
      ([], ["Error fetching medical history:"])) ∧
    (∀ pid d e, getPatientFiles pid ⟨d, some e⟩ =
      ([], ["Error fetching patient files:"])) ∧
    (∀ d e, getAppointments ⟨d, some e⟩ =
      ([], ["Error fetching appointments:"])) :=
  ⟨fun _ _ => rfl, fun _ _ _ => rfl, fun _ _ _ => rfl, fun _ _ => rfl⟩

/-- C6: a successful list call against the healthy backend returns rows
ordered as declared (getPatients descending by created_at,
getMedicalHistory descending by date, getPatientFiles descending by
upload_date, getAppointments ascending by date), and the two
foreign-key-filtered operations return only rows whose patient_id equals
the given key. -/
theorem list_ops_order_and_filter :
    (∀ db : List Patient,
      (getPatients ⟨some (patientsQuery db), none⟩).1.Sorted
        patientCreatedDesc) ∧
    (∀ (db : List MedicalHistory) (pid : String),
      (getMedicalHistory pid
          ⟨some (medicalHistoryQuery db pid), none⟩).1.Sorted
        historyDateDesc ∧
      (getMedicalHistory pid
          ⟨some (medicalHistoryQuery db pid), none⟩).1.all
        (fun h => h.patient_id == pid) = true) ∧
    (∀ (db : List PatientFile) (pid : String),
      (getPatientFiles pid
          ⟨some (patientFilesQuery db pid), none⟩).1.Sorted
        fileUploadDateDesc ∧
      (getPatientFiles pid
          ⟨some (patientFilesQuery db pid), none⟩).1.all
        (fun f => f.patient_id == pid) = true) ∧
    (∀ db : List AppointmentJoined,
      (getAppointments ⟨some (appointmentsQuery db), none⟩).1.Sorted
        (fun a b => a.date ≤ b.date)) := by
  refine ⟨fun db => ?_, fun db pid => ⟨?_, ?_⟩, fun db pid => ⟨?_, ?_⟩,
    fun db => ?_⟩
  · exact List.sorted_insertionSort patientCreatedDesc db
  · exact List.sorted_insertionSort historyDateDesc _
  · show (medicalHistoryQuery db pid).all _ = true
    rw [List.all_eq_true]
    intro h hmem
    rw [medicalHistoryQuery, List.mem_insertionSort] at hmem
    exact (List.mem_filter.mp hmem).2
  · exact List.sorted_insertionSort fileUploadDateDesc _
  · show (patientFilesQuery db pid).all _ = true
    rw [List.all_eq_true]
    intro f hmem
    rw [patientFilesQuery, List.mem_insertionSort] at hmem
    exact (List.mem_filter.mp hmem).2
  · show ((appointmentsQuery db).map flattenAppointment).Sorted
      (fun a b => a.date ≤ b.date)
    exact List.Pairwise.map flattenAppointment (fun a b h => h)
      (List.sorted_insertionSort appointmentDateAsc db)

/-- C7: against the healthy backend holding a row with the given primary
key, updatePatient and updateAppointment return that row merged with the
caller's fields, its updated_at stamped with the call-site time; when the
remote call fails they return null. -/
theorem update_by_pk_semantics (db : List Patient) (adb : List Appointment)
    (id aid : String) (u : PatientUpdate) (au : AppointmentUpdate)
    (now : String) (p : Patient) (a : Appointment)
    (hp : db.find? (fun q => q.id == id) = some p)
    (ha : adb.find? (fun q => q.id == aid) = some a) :
    updatePatient id u now (patientUpdateBackend db) =
      (some (mergePatient p (patientUpdatePayload u now)), []) ∧
    (mergePatient p (patientUpdatePayload u now)).updated_at = now ∧
    updateAppointment aid au now (appointmentUpdateBackend adb) =
      (some (mergeAppointment a (appointmentUpdatePayload au now)), []) ∧
    (mergeAppointment a (appointmentUpdatePayload au now)).updated_at =
      now ∧
    (∀ e, updatePatient id u now (fun _ _ => .error e) =
      (none, ["Error updating patient:"])) ∧
    (∀ e, updateAppointment aid au now (fun _ _ => .error e) =
      (none, ["Error updating appointment:"])) := by
  refine ⟨?_, rfl, ?_, rfl, fun e => rfl, fun e => rfl⟩
  · unfold updatePatient patientUpdateBackend
    rw [hp]
  · unfold updateAppointment appointmentUpdateBackend
    rw [ha]

/-- Concrete instantiation of update_by_pk_semantics: a one-row database
holding the sample patient and the sample appointment. -/
theorem update_by_pk_semantics_witness :
    (updatePatient "p1" {} "2099-01-01T00:00:00Z"
        (patientUpdateBackend [samplePatient])).1 =
      some (mergePatient samplePatient
        (patientUpdatePayload {} "2099-01-01T00:00:00Z")) ∧
    (mergePatient samplePatient
        (patientUpdatePayload {} "2099-01-01T00:00:00Z")).updated_at =
      "2099-01-01T00:00:00Z" := by
  have h := update_by_pk_semantics [samplePatient] [sampleAppointment]
    "p1" "a1" {} {} "2099-01-01T00:00:00Z" samplePatient sampleAppointment
    (by decide) (by decide)
  exact ⟨congrArg Prod.fst h.1, h.2.1⟩

/-- C8 counterexample: a signed-URL response that succeeds (no error,
payload present) but carries the empty string is converted to null by the
truthiness coercion, so the operation does not return the URL string the
successful request produced. -/
theorem getFileUrl_empty_url_null :
    (getFileUrl "p1/scan.pdf"
      { data := some { signedUrl := "" }, error := none }).result = none ∧
    ({ data := some { signedUrl := "" }, error := none } :
      Resp SignedUrlData).error = none :=
  ⟨rfl, rfl⟩

/-- C8 amended: getFileUrl always requests a signed URL for the given
storage path with a 3600 second (one hour) expiry; it returns the URL
string when the request succeeds with a non-empty URL, and null when the
request fails, yields no payload, or yields the empty string. -/
theorem getFileUrl_semantics :
    (∀ p r, (getFileUrl p r).requestedPath = p ∧
      (getFileUrl p r).requestedExpiry = 3600) ∧
    (∀ p u e, u ≠ "" →
      (getFileUrl p ⟨some ⟨u⟩, e⟩).result = some u) ∧
    (∀ p e, (getFileUrl p ⟨none, e⟩).result = none) ∧
    (∀ p e, (getFileUrl p ⟨some ⟨""⟩, e⟩).result = none) := by
  refine ⟨fun p r => ⟨rfl, rfl⟩, fun p u e h => ?_, fun p e => rfl,
    fun p e => rfl⟩
  show (if u = "" then none else some u) = some u
  rw [if_neg h]

/-- Concrete instantiation of getFileUrl_semantics at a non-empty URL. -/
theorem getFileUrl_semantics_witness :
    "https://example.test/signed" ≠ "" ∧
    (getFileUrl "p1/scan.pdf"
      ⟨some ⟨"https://example.test/signed"⟩, none⟩).result =
      some "https://example.test/signed" :=
  ⟨by decide, getFileUrl_semantics.2.1 "p1/scan.pdf"
    "https://example.test/signed" none (by decide)⟩

/-- C9: the update payload sent by updatePatient and updateAppointment
carries the call-site timestamp in updated_at, overriding any
caller-supplied updated_at, and passes every other caller-supplied field
(including id) through unchanged. -/
theorem update_payload_override :
    (∀ u now, (patientUpdatePayload u now).updated_at = some now ∧
      (patientUpdatePayload u now).id = u.id ∧
      (patientUpdatePayload u now).name = u.name ∧
      (patientUpdatePayload u now).cedula = u.cedula ∧
      (patientUpdatePayload u now).phone = u.phone ∧
      (patientUpdatePayload u now).email = u.email ∧
      (patientUpdatePayload u now).address = u.address ∧
      (patientUpdatePayload u now).birth_date = u.birth_date ∧
      (patientUpdatePayload u now).gender = u.gender ∧
      (patientUpdatePayload u now).treatments = u.treatments ∧
      (patientUpdatePayload u now).status = u.status ∧
      (patientUpdatePayload u now).notes = u.notes ∧
      (patientUpdatePayload u now).created_at = u.created_at) ∧
    (∀ (u : PatientUpdate) (now t : String), (patientUpdatePayload
      { u with updated_at := some t } now).updated_at = some now) ∧
    (∀ u now, (appointmentUpdatePayload u now).updated_at = some now ∧
      (appointmentUpdatePayload u now).id = u.id ∧
      (appointmentUpdatePayload u now).patient_id = u.patient_id ∧
      (appointmentUpdatePayload u now).date = u.date ∧
      (appointmentUpdatePayload u now).time = u.time ∧
      (appointmentUpdatePayload u now).duration = u.duration ∧
      (appointmentUpdatePayload u now).type = u.type ∧
      (appointmentUpdatePayload u now).notes = u.notes ∧
      (appointmentUpdatePayload u now).status = u.status ∧
      (appointmentUpdatePayload u now).created_at = u.created_at) ∧
    (∀ (u : AppointmentUpdate) (now t : String), (appointmentUpdatePayload
      { u with updated_at := some t } now).updated_at = some now) :=
  ⟨fun u now => ⟨rfl, rfl, rfl, rfl, rfl, rfl, rfl, rfl, rfl, rfl, rfl,
    rfl, rfl⟩,
   fun u now t => rfl,
   fun u now => ⟨rfl, rfl, rfl, rfl, rfl, rfl, rfl, rfl, rfl, rfl⟩,
   fun u now t => rfl⟩

/-- C10: every element of a successful getAppointments result carries the
flattened patientName equal to the joined patient's name and retains the
raw nested patients object; the result is exactly the joined rows mapped
through the flattening step. -/
theorem getAppointments_flatten_keeps_join :
    (∀ a, (flattenAppointment a).patients = a.patients ∧
      (flattenAppointment a).patientName = a.patients.name) ∧
    (∀ rows, (getAppointments ⟨some rows, none⟩).1 =
        rows.map flattenAppointment ∧
      (getAppointments ⟨some rows, none⟩).1.map (fun x => x.patients) =
        rows.map (fun a => a.patients) ∧
      (getAppointments ⟨some rows, none⟩).1.all
        (fun x => x.patientName == x.patients.name) = true) := by
  refine ⟨fun a => ⟨rfl, rfl⟩, fun rows => ⟨rfl, ?_, ?_⟩⟩
  · show (rows.map flattenAppointment).map (fun x => x.patients) =
      rows.map (fun a => a.patients)
    rw [List.map_map]
    rfl
  · show (rows.map flattenAppointment).all
      (fun x => x.patientName == x.patients.name) = true
    rw [List.all_eq_true]
    intro x hx
    obtain ⟨a, _, rfl⟩ := List.mem_map.mp hx
    exact beq_self_eq_true a.patients.name

end Gateway
